import Mathlib

/-!
Verification of the regridding core of `regrid.py` (`regrid_data`).

The Python function takes two labeled 3-D arrays (`xarray.DataArray`) indexed by
`time`, `latitude`, `longitude`, and for each source timestep bilinearly
interpolates its spatial slab onto the target's latitude/longitude coordinates
(`original.interp(latitude=..., longitude=...)`, which is scipy's multilinear
`RegularGridInterpolator` with NaN fill outside the source bounds), then adds
`0 * first_date_data.data.squeeze()` to propagate the target's NaN mask, stores
the slab in a preallocated buffer, and finally assembles an `xarray.Dataset`
whose dims are `(latitude, longitude, time)` with the target's spatial
coordinates, the source's time coordinate, and the source's name suffixed with
`_REGRIDDED`.

The shallow embedding below models missing cells (NaN) as `none : Option ℚ`,
with NaN-propagating arithmetic; coordinates are lists of rationals; a grid's
payload is a total function of positional indices (time, lat, lon), meaningful
on indices below the coordinate lengths.  Failure points of the Python code
(missing coordinate axes, `target.time[0]` on an empty axis, scipy's
strict-monotonicity requirement on the source grid, the numpy broadcasting
failure of the squeezed mask against a length-1 longitude axis, and `None +
"_REGRIDDED"`) are modeled as an `Except` error result, raised in the order in
which the interpreter would reach them.
-/

/-- A cell value: `none` models NaN (a missing cell), `some q` a finite value. -/
abbrev Val := Option ℚ

/-- NaN-propagating addition: NaN + x = NaN, as in IEEE / numpy. -/
def vadd : Val → Val → Val
  | some a, some b => some (a + b)
  | _, _ => none

/-- NaN-propagating multiplication: NaN * x = NaN even when x = 0, as in
IEEE / numpy (this is what makes the `+ 0 * mask` trick propagate the mask,
and also what makes scipy's zero-weight corner terms propagate NaN). -/
def vmul : Val → Val → Val
  | some a, some b => some (a * b)
  | _, _ => none

/-- Strictly ascending list of coordinates (`np.all(np.diff(p) > 0)`). -/
def ascB : List ℚ → Bool
  | [] => true
  | [_] => true
  | a :: b :: rest => decide (a < b) && ascB (b :: rest)

/-- Strictly descending list of coordinates (`np.all(np.diff(p) < 0)`). -/
def descB : List ℚ → Bool
  | [] => true
  | [_] => true
  | a :: b :: rest => decide (b < a) && descB (b :: rest)

/-- scipy's `RegularGridInterpolator` accepts a grid axis iff it is strictly
ascending or strictly descending. -/
def monoB (xs : List ℚ) : Bool := ascB xs || descB xs

/-- Locate the grid cell of a query point on a strictly ascending axis, as
scipy's `_find_indices` does: `i = searchsorted(grid, x) - 1` clipped into
`[0, n-2]`, together with the normalized distance
`(x - grid[i]) / (grid[i+1] - grid[i])`.  Outside `[grid[0], grid[n-1]]` the
fill value NaN is used (`none`).  An axis with fewer than two points yields a
`0/0` normalized distance in scipy, hence NaN everywhere (`none`). -/
def findCell (xs : List ℚ) (x : ℚ) : Option (Nat × ℚ) :=
  if 2 ≤ xs.length then
    if x < xs.getD 0 0 ∨ xs.getD (xs.length - 1) 0 < x then none
    else
      some (min (xs.countP (fun a => decide (a < x)) - 1) (xs.length - 2),
        (x - xs.getD (min (xs.countP (fun a => decide (a < x)) - 1) (xs.length - 2)) 0) /
          (xs.getD (min (xs.countP (fun a => decide (a < x)) - 1) (xs.length - 2) + 1) 0 -
            xs.getD (min (xs.countP (fun a => decide (a < x)) - 1) (xs.length - 2)) 0))
  else none

/-- Bilinear interpolation of the slab `f` (indexed lat, lon over the ascending
axes `las`, `los`) at the query point `(x, y)`: the scipy corner sum
`Σ f(corner) * weight`, with NaN propagating through every term exactly as in
numpy arithmetic (a NaN corner poisons the sum even when its weight is 0). -/
def interp2 (las los : List ℚ) (f : Nat → Nat → Val) (x y : ℚ) : Val :=
  match findCell las x, findCell los y with
  | some p, some q =>
      vadd
        (vadd (vmul (some ((1 - p.2) * (1 - q.2))) (f p.1 q.1))
              (vmul (some ((1 - p.2) * q.2)) (f p.1 (q.1 + 1))))
        (vadd (vmul (some (p.2 * (1 - q.2))) (f (p.1 + 1) q.1))
              (vmul (some (p.2 * q.2)) (f (p.1 + 1) (q.1 + 1))))
  | _, _ => none

/-- scipy normalizes a strictly descending axis by flipping it (and the payload
along that dimension); an ascending axis is kept as is. -/
def normAxis (xs : List ℚ) : List ℚ × (Nat → Nat) :=
  if ascB xs then ⟨xs, fun i => i⟩ else ⟨xs.reverse, fun i => xs.length - 1 - i⟩

/-- `original.interp(latitude=x, longitude=y)` at one destination point:
bilinear interpolation of the source slab `f` over the source spatial axes
`slat`, `slon` (flipped first if descending). -/
def rawInterp (slat slon : List ℚ) (f : Nat → Nat → Val) (x y : ℚ) : Val :=
  interp2 (normAxis slat).1 (normAxis slon).1
    (fun i j => f ((normAxis slat).2 i) ((normAxis slon).2 j)) x y

def timeKey : String := "time"
def latKey : String := "latitude"
def lonKey : String := "longitude"
def regridSuffix : String := "_REGRIDDED"

/-- An `xarray.DataArray` with (up to) the three coordinate axes `time`,
`latitude`, `longitude`: `coords` returns the coordinate values of an axis, or
`none` when the array lacks that axis; `values` is the payload, positionally
indexed `(time, lat, lon)` (the dimension order of the repository's data),
meaningful on indices below the corresponding coordinate lengths. -/
structure DataArray where
  name : Option String
  coords : String → Option (List ℚ)
  values : Nat → Nat → Nat → Val

/-- The assembled `xarray.Dataset` of `regrid_data`: one variable whose array
dimensions are ordered `(latitude, longitude, time)` — `values` is positionally
indexed in exactly that order — with the target's spatial coordinates and the
source's time coordinate. -/
structure RegriddedResult where
  name : String
  latitude : List ℚ
  longitude : List ℚ
  time : List ℚ
  values : Nat → Nat → Nat → Val

/-- The failure points of `regrid_data`, by the Python exception that fires:
`shapeMismatch` — a required coordinate axis is absent (AttributeError /
missing-dimension ValueError); `indexError` — `target.time[0]` on an empty time
axis; `interpolationError` — scipy rejects a non-monotonic source spatial axis;
`broadcastError` — the squeezed mask of a (≥2)×1 target broadcasts to the wrong
shape and the per-timestep store fails; `typeError` — `None + "_REGRIDDED"`. -/
inductive RegridError
  | shapeMismatch
  | indexError
  | interpolationError
  | broadcastError
  | typeError
deriving DecidableEq

/-- The raw (un-masked) interpolated value of one output cell:
`input_data.sel(time=i).interp(latitude=tlat[la], longitude=tlon[lo])`. -/
def rawCell (s : DataArray) (tlat tlon : List ℚ) (i la lo : Nat) : Val :=
  rawInterp ((s.coords latKey).getD []) ((s.coords lonKey).getD [])
    (fun a o => s.values i a o) (tlat.getD la 0) (tlon.getD lo 0)

/-- One output cell after the mask step `regridded + 0 * first_date_data.data.squeeze()`:
the target's reference-slab cell, scaled by zero, is added NaN-propagatingly. -/
def maskedCell (s t : DataArray) (tlat tlon : List ℚ) (i la lo : Nat) : Val :=
  vadd (rawCell s tlat tlon i la lo) (vmul (some 0) (t.values 0 la lo))

/-- The state threaded through the per-timestep loop: the two input arrays and
the preallocated output buffer `regridded_array` (indexed lat, lon, time;
`np.empty` junk modeled as `some 0`). -/
structure LoopState where
  src : DataArray
  tgt : DataArray
  buffer : Nat → Nat → Nat → Val

/-- One iteration of the loop: interpolate the slab at timestep `i`, mask it,
and store it at `regridded_array[..., i]`; the inputs are only read. -/
def loopBody (tlat tlon : List ℚ) (st : LoopState) (i : Nat) : LoopState :=
  ⟨st.src, st.tgt, fun la lo k =>
    if k = i then maskedCell st.src st.tgt tlat tlon i la lo else st.buffer la lo k⟩

/-- The whole loop `for i, time in enumerate(input_data.time)`. -/
def runLoop (s t : DataArray) (tlat tlon : List ℚ) (n : Nat) : LoopState :=
  (List.range n).foldl (loopBody tlat tlon) ⟨s, t, fun _ _ _ => some 0⟩

/-- The failures that can fire inside the loop body, in evaluation order; they
fire on the first iteration or never, so they depend only on the inputs.
`none` means every iteration runs to completion (an empty source time axis
skips the loop entirely, so nothing is checked). -/
def loopCheck (s : DataArray) (tlat tlon itime : List ℚ) : Option RegridError :=
  if itime = [] then none
  else
    match s.coords latKey with
    | none => some RegridError.shapeMismatch
    | some slat =>
      match s.coords lonKey with
      | none => some RegridError.shapeMismatch
      | some slon =>
        if monoB slat && monoB slon then
          if tlon.length = 1 ∧ 2 ≤ tlat.length then some RegridError.broadcastError
          else none
        else some RegridError.interpolationError

/-- The embedding of `regrid_data`, with every failure point of the Python code
raised in the order the interpreter reaches it: `target_data.time` (line 38),
`target_data.time[0]`, `first_date_data.latitude` / `.longitude` (39–40),
`len(input_data.time)` (45), then per-iteration failures (interp and mask,
48–57), then `input_data.name + "_REGRIDDED"` (62). -/
def regrid_data (input_data target_data : DataArray) : Except RegridError RegriddedResult :=
  match target_data.coords timeKey with
  | none => Except.error RegridError.shapeMismatch
  | some ttime =>
    if ttime = [] then Except.error RegridError.indexError
    else
      match target_data.coords latKey with
      | none => Except.error RegridError.shapeMismatch
      | some target_latitude =>
        match target_data.coords lonKey with
        | none => Except.error RegridError.shapeMismatch
        | some target_longitude =>
          match input_data.coords timeKey with
          | none => Except.error RegridError.shapeMismatch
          | some itime =>
            match loopCheck input_data target_latitude target_longitude itime with
            | some e => Except.error e
            | none =>
              match input_data.name with
              | none => Except.error RegridError.typeError
              | some nm =>
                Except.ok
                  ⟨nm ++ regridSuffix, target_latitude, target_longitude, itime,
                    (runLoop input_data target_data target_latitude target_longitude
                      itime.length).buffer⟩

/-- Whether a call returned a result rather than raising. -/
def exceptOk : Except RegridError RegriddedResult → Bool
  | Except.ok _ => true
  | Except.error _ => false

def emptyName : String := ""

/-- Extract the result of a successful call (junk default otherwise). -/
def okResult : Except RegridError RegriddedResult → RegriddedResult
  | Except.ok r => r
  | Except.error _ => ⟨emptyName, [], [], [], fun _ _ _ => none⟩

/-! ## Helper lemmas on lists and the interpolation primitives -/

theorem getD_mem_of_lt {xs : List ℚ} {i : Nat} (h : i < xs.length) : xs.getD i 0 ∈ xs := by
  induction xs generalizing i with
  | nil => simp at h
  | cons a rest ih =>
    cases i with
    | zero => simp
    | succ j =>
      simp only [List.getD_cons_succ]
      exact List.mem_cons_of_mem a (ih (Nat.lt_of_succ_lt_succ h))

theorem ascB_tail {a : ℚ} {rest : List ℚ} (h : ascB (a :: rest) = true) : ascB rest = true := by
  cases rest with
  | nil => rfl
  | cons b tl =>
    simp only [ascB, Bool.and_eq_true] at h
    exact h.2

theorem ascB_head_lt {a : ℚ} {rest : List ℚ} (h : ascB (a :: rest) = true) :
    ∀ b ∈ rest, a < b := by
  induction rest generalizing a with
  | nil => intro b hb; simp at hb
  | cons c tl ih =>
    simp only [ascB, Bool.and_eq_true, decide_eq_true_eq] at h
    intro b hb
    rcases List.mem_cons.mp hb with hb | hb
    · exact hb ▸ h.1
    · exact lt_trans h.1 (ih h.2 b hb)

theorem ascB_getD_lt {xs : List ℚ} (h : ascB xs = true) {i j : Nat}
    (hij : i < j) (hj : j < xs.length) : xs.getD i 0 < xs.getD j 0 := by
  induction xs generalizing i j with
  | nil => simp at hj
  | cons a rest ih =>
    cases j with
    | zero => exact absurd hij (Nat.not_lt_zero i)
    | succ j =>
      cases i with
      | zero =>
        simp only [List.getD_cons_zero, List.getD_cons_succ]
        exact ascB_head_lt h _ (getD_mem_of_lt (Nat.lt_of_succ_lt_succ hj))
      | succ i =>
        simp only [List.getD_cons_succ]
        exact ih (ascB_tail h) (Nat.lt_of_succ_lt_succ hij) (Nat.lt_of_succ_lt_succ hj)

theorem ascB_getD_le {xs : List ℚ} (h : ascB xs = true) {i j : Nat}
    (hij : i ≤ j) (hj : j < xs.length) : xs.getD i 0 ≤ xs.getD j 0 := by
  rcases Nat.lt_or_ge i j with hlt | hge
  · exact le_of_lt (ascB_getD_lt h hlt hj)
  · have : i = j := Nat.le_antisymm hij hge
    exact this ▸ le_refl _

theorem ascB_countP_getD {xs : List ℚ} (h : ascB xs = true) {k : Nat} (hk : k < xs.length) :
    xs.countP (fun a => decide (a < xs.getD k 0)) = k := by
  induction xs generalizing k with
  | nil => simp at hk
  | cons a rest ih =>
    cases k with
    | zero =>
      simp only [List.getD_cons_zero, List.countP_cons, decide_eq_true_eq]
      rw [if_neg (lt_irrefl a), Nat.add_zero, List.countP_eq_zero]
      intro b hb
      simp only [decide_eq_true_eq]
      exact not_lt.mpr (le_of_lt (ascB_head_lt h b hb))
    | succ k =>
      have hk2 : k < rest.length := Nat.lt_of_succ_lt_succ hk
      simp only [List.getD_cons_succ, List.countP_cons, decide_eq_true_eq]
      rw [ih (ascB_tail h) hk2, if_pos (ascB_head_lt h _ (getD_mem_of_lt hk2))]

/-- Where `findCell` lands when the query point is exactly a grid node of a
strictly ascending axis: node 0 is the lower corner of the first cell with
weight 0; node `k ≥ 1` is the upper corner of cell `k-1` with weight 1
(scipy's left-searchsorted convention). -/
theorem findCell_node {xs : List ℚ} (h : ascB xs = true) (h2 : 2 ≤ xs.length)
    {k : Nat} (hk : k < xs.length) :
    findCell xs (xs.getD k 0) = some (if k = 0 then (0, 0) else (k - 1, 1)) := by
  have hlast : k ≤ xs.length - 1 := Nat.le_pred_of_lt hk
  have hlast2 : xs.length - 1 < xs.length :=
    Nat.sub_lt (Nat.lt_of_lt_of_le (by norm_num) h2) (by norm_num)
  unfold findCell
  rw [if_pos h2, if_neg]
  · rw [ascB_countP_getD h hk]
    cases k with
    | zero =>
      have hmin : min (0 - 1) (xs.length - 2) = 0 := by omega
      rw [hmin, sub_self, zero_div]
      simp
    | succ k =>
      have hmin : min (k + 1 - 1) (xs.length - 2) = k := by omega
      rw [hmin]
      have hne : xs.getD (k + 1) 0 - xs.getD k 0 ≠ 0 :=
        sub_ne_zero_of_ne (ne_of_gt (ascB_getD_lt h (Nat.lt_succ_self k) hk))
      rw [div_self hne]
      simp
  · push_neg
    constructor
    · exact ascB_getD_le h (Nat.zero_le k) hk
    · exact ascB_getD_le h hlast hlast2

/-- A query point strictly below every axis value is out of bounds. -/
theorem findCell_below {xs : List ℚ} {x : ℚ} (h : ∀ a ∈ xs, x < a) :
    findCell xs x = none := by
  unfold findCell
  by_cases h2 : 2 ≤ xs.length
  · rw [if_pos h2, if_pos]
    exact Or.inl (h _ (getD_mem_of_lt (by omega)))
  · rw [if_neg h2]

/-- A query point strictly above every axis value is out of bounds. -/
theorem findCell_above {xs : List ℚ} {x : ℚ} (h : ∀ a ∈ xs, a < x) :
    findCell xs x = none := by
  unfold findCell
  by_cases h2 : 2 ≤ xs.length
  · rw [if_pos h2, if_pos]
    exact Or.inr (h _ (getD_mem_of_lt (by omega)))
  · rw [if_neg h2]

theorem interp2_none_left {las los : List ℚ} {f : Nat → Nat → Val} {x y : ℚ}
    (h : findCell las x = none) : interp2 las los f x y = none := by
  unfold interp2
  rw [h]

theorem interp2_none_right {las los : List ℚ} {f : Nat → Nat → Val} {x y : ℚ}
    (h : findCell los y = none) : interp2 las los f x y = none := by
  unfold interp2
  rw [h]
  rcases findCell las x with _ | p <;> rfl

theorem vadd_none_right (v : Val) : vadd v none = none := by
  cases v <;> rfl

theorem vmul_none_right (v : Val) : vmul v none = none := by
  cases v <;> rfl

/-! ## The loop: frame property and buffer contents -/

theorem foldl_loopBody_src (tlat tlon : List ℚ) (l : List Nat) (st : LoopState) :
    (l.foldl (loopBody tlat tlon) st).src = st.src := by
  induction l generalizing st with
  | nil => rfl
  | cons a l ih => exact ih (loopBody tlat tlon st a)

theorem foldl_loopBody_tgt (tlat tlon : List ℚ) (l : List Nat) (st : LoopState) :
    (l.foldl (loopBody tlat tlon) st).tgt = st.tgt := by
  induction l generalizing st with
  | nil => rfl
  | cons a l ih => exact ih (loopBody tlat tlon st a)

theorem foldl_loopBody_buffer (tlat tlon : List ℚ) (l : List Nat) (st : LoopState)
    (la lo k : Nat) :
    (l.foldl (loopBody tlat tlon) st).buffer la lo k =
      if k ∈ l then maskedCell st.src st.tgt tlat tlon k la lo
      else st.buffer la lo k := by
  induction l generalizing st with
  | nil => simp
  | cons a l ih =>
    simp only [List.foldl_cons, List.mem_cons]
    rw [ih (loopBody tlat tlon st a)]
    by_cases hmem : k ∈ l
    · rw [if_pos hmem, if_pos (Or.inr hmem)]; rfl
    · rw [if_neg hmem]
      by_cases hka : k = a
      · rw [if_pos (Or.inl hka)]
        simp only [loopBody, if_pos hka]
        rw [hka]
      · rw [if_neg (by tauto)]
        simp only [loopBody, if_neg hka]

theorem runLoop_buffer {s t : DataArray} {tlat tlon : List ℚ} {n : Nat}
    {k : Nat} (hk : k < n) (la lo : Nat) :
    (runLoop s t tlat tlon n).buffer la lo k = maskedCell s t tlat tlon k la lo := by
  unfold runLoop
  rw [foldl_loopBody_buffer, if_pos (List.mem_range.mpr hk)]

/-! ## Inversion of a successful `regrid_data` call -/

theorem regrid_ok_inv {s t : DataArray} {r : RegriddedResult}
    (h : regrid_data s t = Except.ok r) :
    ∃ ttime tlat tlon itime nm,
      t.coords timeKey = some ttime ∧ ttime ≠ [] ∧
      t.coords latKey = some tlat ∧ t.coords lonKey = some tlon ∧
      s.coords timeKey = some itime ∧
      loopCheck s tlat tlon itime = none ∧
      s.name = some nm ∧
      r = ⟨nm ++ regridSuffix, tlat, tlon, itime,
        (runLoop s t tlat tlon itime.length).buffer⟩ := by
  unfold regrid_data at h
  split at h
  next => exact absurd h (by simp)
  next ttime hc1 =>
    split at h
    next => exact absurd h (by simp)
    next he =>
      split at h
      next => exact absurd h (by simp)
      next tlat hc2 =>
        split at h
        next => exact absurd h (by simp)
        next tlon hc3 =>
          split at h
          next => exact absurd h (by simp)
          next itime hc4 =>
            split at h
            next e hc5 => exact absurd h (by simp)
            next hc5 =>
              split at h
              next hc6 => exact absurd h (by simp)
              next nm hc6 =>
                exact ⟨ttime, tlat, tlon, itime, nm, hc1, he, hc2, hc3, hc4, hc5, hc6,
                  (Except.ok.inj h).symm⟩

/-- Forward characterization: when every failure point passes, `regrid_data`
returns the assembled result. -/
theorem regrid_eq_ok (s t : DataArray) (ttime tlat tlon itime : List ℚ) (nm : String)
    (h1 : t.coords timeKey = some ttime) (h2 : ttime ≠ [])
    (h3 : t.coords latKey = some tlat) (h4 : t.coords lonKey = some tlon)
    (h5 : s.coords timeKey = some itime) (h6 : loopCheck s tlat tlon itime = none)
    (h7 : s.name = some nm) :
    regrid_data s t = Except.ok ⟨nm ++ regridSuffix, tlat, tlon, itime,
      (runLoop s t tlat tlon itime.length).buffer⟩ := by
  simp only [regrid_data, h1, h3, h4, h5, h6, h7, if_neg h2]

/-- Bilinear interpolation of an everywhere-present slab, queried exactly at a
grid node of strictly ascending axes, returns the slab's value at that node
(the zero/one weights select it and no NaN can poison the sum). -/
theorem interp2_nodes {L M : List ℚ} (hL : ascB L = true) (hM : ascB M = true)
    (hL2 : 2 ≤ L.length) (hM2 : 2 ≤ M.length) (f : Nat → Nat → Val)
    (hf : ∀ a, a < L.length → ∀ b, b < M.length → (f a b).isSome = true)
    {k l : Nat} (hk : k < L.length) (hl : l < M.length) :
    interp2 L M f (L.getD k 0) (M.getD l 0) = f k l := by
  have h1L : 1 < L.length := by omega
  have h1M : 1 < M.length := by omega
  unfold interp2
  rw [findCell_node hL hL2 hk, findCell_node hM hM2 hl]
  by_cases hk0 : k = 0
  · subst hk0
    by_cases hl0 : l = 0
    · subst hl0
      simp only [if_pos rfl]
      obtain ⟨v00, h00⟩ := Option.isSome_iff_exists.mp (hf 0 (by omega) 0 (by omega))
      obtain ⟨v01, h01⟩ := Option.isSome_iff_exists.mp (hf 0 (by omega) 1 h1M)
      obtain ⟨v10, h10⟩ := Option.isSome_iff_exists.mp (hf 1 h1L 0 (by omega))
      obtain ⟨v11, h11⟩ := Option.isSome_iff_exists.mp (hf 1 h1L 1 h1M)
      simp [vadd, vmul, h00, h01, h10, h11]
    · simp only [if_pos rfl, if_neg hl0]
      have hl1 : l - 1 + 1 = l := Nat.sub_add_cancel (by omega)
      simp only [hl1]
      obtain ⟨v00, h00⟩ := Option.isSome_iff_exists.mp (hf 0 (by omega) (l - 1) (by omega))
      obtain ⟨v01, h01⟩ := Option.isSome_iff_exists.mp (hf 0 (by omega) l hl)
      obtain ⟨v10, h10⟩ := Option.isSome_iff_exists.mp (hf 1 h1L (l - 1) (by omega))
      obtain ⟨v11, h11⟩ := Option.isSome_iff_exists.mp (hf 1 h1L l hl)
      simp [vadd, vmul, h00, h01, h10, h11]
  · by_cases hl0 : l = 0
    · subst hl0
      simp only [if_pos rfl, if_neg hk0]
      have hk1 : k - 1 + 1 = k := Nat.sub_add_cancel (by omega)
      simp only [hk1]
      obtain ⟨v00, h00⟩ := Option.isSome_iff_exists.mp (hf (k - 1) (by omega) 0 (by omega))
      obtain ⟨v01, h01⟩ := Option.isSome_iff_exists.mp (hf (k - 1) (by omega) 1 h1M)
      obtain ⟨v10, h10⟩ := Option.isSome_iff_exists.mp (hf k hk 0 (by omega))
      obtain ⟨v11, h11⟩ := Option.isSome_iff_exists.mp (hf k hk 1 h1M)
      simp [vadd, vmul, h00, h01, h10, h11]
    · simp only [if_neg hk0, if_neg hl0]
      have hk1 : k - 1 + 1 = k := Nat.sub_add_cancel (by omega)
      have hl1 : l - 1 + 1 = l := Nat.sub_add_cancel (by omega)
      simp only [hk1, hl1]
      obtain ⟨v00, h00⟩ := Option.isSome_iff_exists.mp (hf (k - 1) (by omega) (l - 1) (by omega))
      obtain ⟨v01, h01⟩ := Option.isSome_iff_exists.mp (hf (k - 1) (by omega) l hl)
      obtain ⟨v10, h10⟩ := Option.isSome_iff_exists.mp (hf k hk (l - 1) (by omega))
      obtain ⟨v11, h11⟩ := Option.isSome_iff_exists.mp (hf k hk l hl)
      simp [vadd, vmul, h00, h01, h10, h11]

/-- A missing reference-slab cell forces the masked cell to missing. -/
theorem maskedCell_none {s t : DataArray} {tlat tlon : List ℚ} {i la lo : Nat}
    (h : t.values 0 la lo = none) : maskedCell s t tlat tlon i la lo = none := by
  unfold maskedCell
  rw [h, vmul_none_right, vadd_none_right]

/-- A present reference-slab cell leaves the interpolated value unchanged:
adding `0 * v` is the identity on `some x` and keeps `none` missing. -/
theorem maskedCell_some {s t : DataArray} {tlat tlon : List ℚ} {i la lo : Nat}
    {v : ℚ} (h : t.values 0 la lo = some v) :
    maskedCell s t tlat tlon i la lo = rawCell s tlat tlon i la lo := by
  unfold maskedCell
  rw [h]
  cases h2 : rawCell s tlat tlon i la lo with
  | none => rfl
  | some x => simp [vadd, vmul]

/-- Interpolating an everywhere-present slab onto destination coordinates that
coincide with its own (ascending) grid nodes reproduces the slab cell. -/
theorem rawCell_nodes {s : DataArray} {L M : List ℚ} {tlat tlon : List ℚ}
    (hsl : s.coords latKey = some L) (hso : s.coords lonKey = some M)
    (hL : ascB L = true) (hM : ascB M = true)
    (hL2 : 2 ≤ L.length) (hM2 : 2 ≤ M.length)
    {i la lo : Nat} (hla : la < L.length) (hlo : lo < M.length)
    (htla : tlat.getD la 0 = L.getD la 0) (htlo : tlon.getD lo 0 = M.getD lo 0)
    (hf : ∀ a, a < L.length → ∀ b, b < M.length → (s.values i a b).isSome = true) :
    rawCell s tlat tlon i la lo = s.values i la lo := by
  unfold rawCell rawInterp
  rw [hsl, hso]
  simp only [Option.getD_some, normAxis, if_pos hL, if_pos hM]
  rw [htla, htlo]
  exact interp2_nodes hL hM hL2 hM2 _ hf hla hlo

/-! ## Concrete grids used in end-to-end checks, witnesses and counterexamples -/

def pm25Name : String := "PM25_CMIP"

/-- Spatial/temporal coordinates of the end-to-end scenario: `latitude=[0,1]`,
`longitude=[0,1]`, `time=[0,1]`. -/
def c4coords : String → Option (List ℚ) := fun key =>
  if key = timeKey then some [0, 1]
  else if key = latKey then some [0, 1]
  else if key = lonKey then some [0, 1]
  else none

/-- Scenario source: 2 timesteps, slabs `[[1,2],[3,4]]` and `[[5,6],[7,8]]`. -/
def c4src : DataArray :=
  ⟨some pm25Name, c4coords, fun i la lo =>
    if i = 0 then
      (if la = 0 then (if lo = 0 then some 1 else some 2)
       else (if lo = 0 then some 3 else some 4))
    else
      (if la = 0 then (if lo = 0 then some 5 else some 6)
       else (if lo = 0 then some 7 else some 8))⟩

/-- Scenario target: same spatial coordinates, 1 timestep, slab `[[1,1],[NaN,1]]`. -/
def c4tgt : DataArray :=
  ⟨some pm25Name, fun key => if key = timeKey then some [0] else c4coords key,
   fun _ la lo => if la = 1 ∧ lo = 0 then none else some 1⟩

/-- Expected scenario output: `[[1,2],[NaN,4]]` at t0 and `[[5,6],[NaN,8]]` at t1,
indexed `(lat, lon, time)`. -/
def c4expected (la lo i : Nat) : Val :=
  if la = 1 ∧ lo = 0 then none
  else if i = 0 then
    (if la = 0 then (if lo = 0 then some 1 else some 2) else some 4)
  else
    (if la = 0 then (if lo = 0 then some 5 else some 6) else some 8)

/-- C4: on the concrete scenario — source `latitude=[0,1]`, `longitude=[0,1]`,
2 timesteps with slabs `[[1,2],[3,4]]` and `[[5,6],[7,8]]`; target with the
same spatial coordinates, 1 timestep, slab `[[1,1],[NaN,1]]` — `regrid_data`
returns a result with `latitude=[0,1]`, `longitude=[0,1]`, `time=[t0,t1]`,
values `[[1,2],[NaN,4]]` at t0 and `[[5,6],[NaN,8]]` at t1, and the source's
variable name suffixed with `_REGRIDDED`. -/
theorem c4_end_to_end :
    ∃ r, regrid_data c4src c4tgt = Except.ok r ∧
      r.name = pm25Name ++ regridSuffix ∧
      r.latitude = [0, 1] ∧ r.longitude = [0, 1] ∧ r.time = [0, 1] ∧
      ∀ la, la < 2 → ∀ lo, lo < 2 → ∀ i, i < 2 →
        r.values la lo i = c4expected la lo i := by
  have hok := regrid_eq_ok c4src c4tgt [0] [0, 1] [0, 1] [0, 1] pm25Name
    rfl (by decide) rfl rfl rfl (by decide) rfl
  refine ⟨_, hok, rfl, rfl, rfl, rfl, ?_⟩
  intro la hla lo hlo i hi
  show (runLoop c4src c4tgt [0, 1] [0, 1] ([0, 1] : List ℚ).length).buffer la lo i = _
  rw [runLoop_buffer (show i < ([0, 1] : List ℚ).length from hi)]
  by_cases hmask : la = 1 ∧ lo = 0
  · obtain ⟨h1, h2⟩ := hmask
    subst h1; subst h2
    rw [maskedCell_none rfl]
    rfl
  · have hval : c4tgt.values 0 la lo = some 1 := by
      show (if la = 1 ∧ lo = 0 then none else some 1) = some 1
      rw [if_neg hmask]
    have hf : ∀ a, a < (([0, 1] : List ℚ)).length → ∀ b, b < (([0, 1] : List ℚ)).length →
        (c4src.values i a b).isSome = true := by
      intro a _ b _
      show (if i = 0 then _ else _ : Val).isSome = true
      split <;> split <;> split <;> rfl
    rw [maskedCell_some hval,
      rawCell_nodes (show c4src.coords latKey = some [0, 1] from rfl)
        (show c4src.coords lonKey = some [0, 1] from rfl)
        (by decide) (by decide) (by decide) (by decide) hla hlo rfl rfl hf]
    interval_cases la <;> interval_cases lo <;> interval_cases i <;>
      first
        | rfl
        | exact absurd ⟨rfl, rfl⟩ hmask

theorem vadd_none_left (v : Val) : vadd none v = none := by
  cases v <;> rfl

theorem normAxis_mem {xs : List ℚ} {a : ℚ} : a ∈ (normAxis xs).1 ↔ a ∈ xs := by
  unfold normAxis
  split
  · exact Iff.rfl
  · exact List.mem_reverse

/-- C1: in every successful call, a destination cell whose target reference
slab value is missing is missing in the result at every timestep, and a cell
whose reference value is present keeps exactly the raw interpolated value
(adding the zero-scaled mask is the identity there). -/
theorem c1_mask_propagation (s t : DataArray) (r : RegriddedResult)
    (hok : regrid_data s t = Except.ok r) (la lo : Nat) :
    ∀ i, i < r.time.length →
      (t.values 0 la lo = none → r.values la lo i = none) ∧
      (∀ v, t.values 0 la lo = some v →
        r.values la lo i = rawCell s r.latitude r.longitude i la lo) := by
  obtain ⟨ttime, tlat, tlon, itime, nm, hc1, he, hc2, hc3, hc4, hc5, hc6, hr⟩ := regrid_ok_inv hok
  subst hr
  intro i hi
  dsimp only at hi ⊢
  rw [runLoop_buffer hi]
  exact ⟨fun h => maskedCell_none h, fun v h => maskedCell_some h⟩

/-- Witness for C1 at the end-to-end scenario: the reference slab is missing at
`(1,0)` and so is the result there at timestep 0. -/
theorem c1_witness :
    c4tgt.values 0 1 0 = none ∧
    (okResult (regrid_data c4src c4tgt)).values 1 0 0 = none := by
  have hok : regrid_data c4src c4tgt = Except.ok (okResult (regrid_data c4src c4tgt)) := rfl
  exact ⟨rfl, (c1_mask_propagation c4src c4tgt _ hok 1 0 0 (by decide)).1 rfl⟩

/-- C2: every successful call returns a result whose latitude and longitude
coordinates are exactly the target's and whose time coordinate is exactly the
source's (the `RegriddedResult` payload is indexed `(lat, lon, time)`, the
dimension order of the assembled Dataset). -/
theorem c2_result_coords (s t : DataArray) (r : RegriddedResult)
    (hok : regrid_data s t = Except.ok r) :
    t.coords latKey = some r.latitude ∧ t.coords lonKey = some r.longitude ∧
    s.coords timeKey = some r.time := by
  obtain ⟨ttime, tlat, tlon, itime, nm, hc1, he, hc2, hc3, hc4, hc5, hc6, hr⟩ := regrid_ok_inv hok
  subst hr
  exact ⟨hc2, hc3, hc4⟩

/-- Witness for C2 at the end-to-end scenario. -/
theorem c2_witness :
    c4tgt.coords latKey = some (okResult (regrid_data c4src c4tgt)).latitude ∧
    c4tgt.coords lonKey = some (okResult (regrid_data c4src c4tgt)).longitude ∧
    c4src.coords timeKey = some (okResult (regrid_data c4src c4tgt)).time :=
  c2_result_coords c4src c4tgt _ rfl

/-- C8: the loop of `regrid_data` never mutates its inputs: folding the loop
body over any iteration list leaves the source and target components of the
loop state untouched — the body writes only the freshly allocated output
buffer.  The embedding of the whole call is a pure function of its inputs. -/
theorem c8_no_mutation (s t : DataArray) (tlat tlon : List ℚ) (n : Nat) :
    (runLoop s t tlat tlon n).src = s ∧ (runLoop s t tlat tlon n).tgt = t :=
  ⟨foldl_loopBody_src tlat tlon (List.range n) _,
   foldl_loopBody_tgt tlat tlon (List.range n) _⟩

/-- C10: a source whose variable name is unset makes `regrid_data` raise
(`None + "_REGRIDDED"` is a TypeError) instead of returning a result, whatever
the rest of the inputs. -/
theorem c10_missing_name (s t : DataArray) (h : s.name = none) :
    exceptOk (regrid_data s t) = false := by
  cases he : regrid_data s t with
  | error e => rfl
  | ok r =>
    obtain ⟨_, _, _, _, nm, _, _, _, _, _, _, hc6, _⟩ := regrid_ok_inv he
    rw [h] at hc6
    exact absurd hc6 (by simp)

/-- Source with an unset variable name but otherwise valid axes. -/
def c10src : DataArray := ⟨none, c4coords, fun _ _ _ => some 1⟩

/-- Witness for C10: the nameless source raises on otherwise valid inputs. -/
theorem c10_witness : exceptOk (regrid_data c10src c4tgt) = false :=
  c10_missing_name c10src c4tgt rfl

/-- C6: in every successful call, a destination spatial coordinate lying
strictly outside the bounds of the source's latitude range, or of its longitude
range, gives a missing result cell at every timestep (scipy's out-of-bounds
NaN fill, which the mask addition preserves). -/
theorem c6_out_of_hull (s t : DataArray) (r : RegriddedResult) (slat slon : List ℚ)
    (hsl : s.coords latKey = some slat) (hso : s.coords lonKey = some slon)
    (hok : regrid_data s t = Except.ok r) (la lo : Nat)
    (hout :
      (∀ a ∈ slat, r.latitude.getD la 0 < a) ∨ (∀ a ∈ slat, a < r.latitude.getD la 0) ∨
      (∀ a ∈ slon, r.longitude.getD lo 0 < a) ∨ (∀ a ∈ slon, a < r.longitude.getD lo 0)) :
    ∀ i, i < r.time.length → r.values la lo i = none := by
  obtain ⟨ttime, tlat, tlon, itime, nm, hc1, he, hc2, hc3, hc4, hc5, hc6, hr⟩ := regrid_ok_inv hok
  subst hr
  intro i hi
  dsimp only at hi hout ⊢
  rw [runLoop_buffer hi]
  have hnone : rawCell s tlat tlon i la lo = none := by
    unfold rawCell rawInterp
    rw [hsl, hso]
    simp only [Option.getD_some]
    rcases hout with h | h | h | h
    · exact interp2_none_left (findCell_below (fun a ha => h a (normAxis_mem.mp ha)))
    · exact interp2_none_left (findCell_above (fun a ha => h a (normAxis_mem.mp ha)))
    · exact interp2_none_right (findCell_below (fun a ha => h a (normAxis_mem.mp ha)))
    · exact interp2_none_right (findCell_above (fun a ha => h a (normAxis_mem.mp ha)))
  unfold maskedCell
  rw [hnone, vadd_none_left]

def c6coords : String → Option (List ℚ) := fun key =>
  if key = timeKey then some [0]
  else if key = latKey then some [0, 1]
  else if key = lonKey then some [0, 1]
  else none

/-- Source for the C6 witness: everywhere-present 2×2 grid on `[0,1]×[0,1]`. -/
def c6src : DataArray := ⟨some pm25Name, c6coords, fun _ _ _ => some 1⟩

def c6tgtCoords : String → Option (List ℚ) := fun key =>
  if key = latKey then some [0, 5] else c6coords key

/-- Target for the C6 witness: latitude `[0, 5]`, whose second point lies
strictly above every source latitude. -/
def c6tgt : DataArray := ⟨some pm25Name, c6tgtCoords, fun _ _ _ => some 1⟩

/-- Witness for C6: the row at destination latitude 5 (outside the source's
hull `[0,1]`) is missing. -/
theorem c6_witness : (okResult (regrid_data c6src c6tgt)).values 1 0 0 = none :=
  c6_out_of_hull c6src c6tgt _ [0, 1] [0, 1] rfl rfl rfl 1 0
    (Or.inr (Or.inl (by decide))) 0 (by decide)

/-- The source with its time axis permuted by `p` (coordinate values and the
payload permuted in the same way); name and spatial axes untouched. -/
def permuteTime (s : DataArray) (p : Nat → Nat) : DataArray :=
  ⟨s.name,
   fun key =>
     if key = timeKey then
       (s.coords timeKey).map (fun ts => (List.range ts.length).map (fun i => ts.getD (p i) 0))
     else s.coords key,
   fun i la lo => s.values (p i) la lo⟩

/-- C7: permuting the source's time axis (payload permuted correspondingly) by
a permutation `p` of the timestep indices permutes the result's time slices
identically: the permuted call succeeds, its time coordinate is the permuted
one, and its slab at output position `i` is the original result's slab at
position `p i` — each output timestep depends only on the source slab at that
same timestep. -/
theorem c7_time_permutation (s t : DataArray) (p : Nat → Nat) (r : RegriddedResult)
    (hok : regrid_data s t = Except.ok r)
    (hp : ∀ i, i < r.time.length → p i < r.time.length)
    (hpinj : ∀ i, i < r.time.length → ∀ j, j < r.time.length → p i = p j → i = j) :
    exceptOk (regrid_data (permuteTime s p) t) = true ∧
    (okResult (regrid_data (permuteTime s p) t)).time =
      (List.range r.time.length).map (fun i => r.time.getD (p i) 0) ∧
    ∀ la lo i, i < r.time.length →
      (okResult (regrid_data (permuteTime s p) t)).values la lo i =
        r.values la lo (p i) := by
  obtain ⟨ttime, tlat, tlon, itime, nm, hc1, he, hc2, hc3, hc4, hc5, hc6, hr⟩ := regrid_ok_inv hok
  subst hr
  dsimp only at hp hpinj ⊢
  have hts : (permuteTime s p).coords timeKey =
      some ((List.range itime.length).map (fun i => itime.getD (p i) 0)) := by
    simp only [permuteTime, if_true]
    rw [hc4]
    rfl
  have hlat : (permuteTime s p).coords latKey = s.coords latKey := by
    simp only [permuteTime]
    rw [if_neg (show ¬ latKey = timeKey by decide)]
  have hlon : (permuteTime s p).coords lonKey = s.coords lonKey := by
    simp only [permuteTime]
    rw [if_neg (show ¬ lonKey = timeKey by decide)]
  have hiff : ((List.range itime.length).map (fun i => itime.getD (p i) 0) = []) ↔
      (itime = []) := by
    constructor
    · intro h0
      have := congrArg List.length h0
      simp only [List.length_map, List.length_range, List.length_nil] at this
      exact List.length_eq_zero.mp this
    · intro h0
      rw [h0]
      rfl
  have hlc : loopCheck (permuteTime s p) tlat tlon
      ((List.range itime.length).map (fun i => itime.getD (p i) 0)) = none := by
    unfold loopCheck
    unfold loopCheck at hc5
    rw [hlat, hlon, if_congr hiff rfl rfl]
    exact hc5
  have hnm : (permuteTime s p).name = some nm := hc6
  have hok2 := regrid_eq_ok (permuteTime s p) t ttime tlat tlon
    ((List.range itime.length).map (fun i => itime.getD (p i) 0)) nm
    hc1 he hc2 hc3 hts hlc hnm
  refine ⟨by rw [hok2]; rfl, by rw [hok2]; rfl, ?_⟩
  intro la lo i hi
  rw [hok2]
  show (runLoop (permuteTime s p) t tlat tlon
      ((List.range itime.length).map (fun i => itime.getD (p i) 0)).length).buffer la lo i = _
  have hlen : ((List.range itime.length).map (fun i => itime.getD (p i) 0)).length =
      itime.length := by
    rw [List.length_map, List.length_range]
  rw [hlen, runLoop_buffer hi, runLoop_buffer (hp i hi)]
  unfold maskedCell rawCell
  rw [hlat, hlon]
  rfl

def c7perm : Nat → Nat := fun i => 1 - i

/-- Witness for C7: swapping the two timesteps of the scenario source swaps the
result's slabs — output position 0 of the permuted call equals output
position 1 of the original call at cell `(0,1)`. -/
theorem c7_witness :
    (okResult (regrid_data (permuteTime c4src c7perm) c4tgt)).values 0 1 0 =
      (okResult (regrid_data c4src c4tgt)).values 0 1 1 := by
  have h := c7_time_permutation c4src c4tgt c7perm (okResult (regrid_data c4src c4tgt))
    rfl (by decide) (by decide)
  exact h.2.2 0 1 0 (by decide)

theorem descB_tail {a : ℚ} {rest : List ℚ} (h : descB (a :: rest) = true) :
    descB rest = true := by
  cases rest with
  | nil => rfl
  | cons b tl =>
    simp only [descB, Bool.and_eq_true] at h
    exact h.2

theorem descB_head_gt {a : ℚ} {rest : List ℚ} (h : descB (a :: rest) = true) :
    ∀ b ∈ rest, b < a := by
  induction rest generalizing a with
  | nil => intro b hb; simp at hb
  | cons c tl ih =>
    simp only [descB, Bool.and_eq_true, decide_eq_true_eq] at h
    intro b hb
    rcases List.mem_cons.mp hb with hb | hb
    · exact hb ▸ h.1
    · exact lt_trans (ih h.2 b hb) h.1

theorem ascB_append_last {xs : List ℚ} {a : ℚ} (hx : ascB xs = true)
    (hlt : ∀ b ∈ xs, b < a) : ascB (xs ++ [a]) = true := by
  induction xs with
  | nil => rfl
  | cons c rest ih =>
    cases rest with
    | nil =>
      have hca : c < a := hlt c (by simp)
      simp [ascB, hca]
    | cons d tl =>
      simp only [List.cons_append, ascB, Bool.and_eq_true, decide_eq_true_eq] at hx ⊢
      exact ⟨hx.1, ih hx.2 (fun b hb => hlt b (List.mem_cons_of_mem c hb))⟩

/-- Reversing a strictly descending axis yields a strictly ascending one —
this is scipy's normalization of descending grids. -/
theorem ascB_reverse_of_descB {xs : List ℚ} (h : descB xs = true) :
    ascB xs.reverse = true := by
  induction xs with
  | nil => rfl
  | cons a rest ih =>
    rw [List.reverse_cons]
    exact ascB_append_last (ih (descB_tail h))
      (fun b hb => descB_head_gt h b (List.mem_reverse.mp hb))

theorem getD_reverse {xs : List ℚ} {i : Nat} (hi : i < xs.length) :
    xs.reverse.getD i 0 = xs.getD (xs.length - 1 - i) 0 := by
  have h2 : i < xs.reverse.length := by simpa using hi
  rw [List.getD_eq_getElem _ _ h2, List.getD_eq_getElem _ _ (by omega)]
  exact List.getElem_reverse ..

theorem monoB_descB {xs : List ℚ} (h : monoB xs = true) (ha : ascB xs = false) :
    descB xs = true := by
  unfold monoB at h
  rw [ha] at h
  simpa using h

/-- On a strictly monotonic axis, `normAxis` yields a strictly ascending axis
of the same length, an everywhere-in-bounds index map, and for every original
node an index of the normalized axis carrying the same coordinate value and
mapping back to that node. -/
theorem normAxis_node {xs : List ℚ} (hx : monoB xs = true) {k : Nat}
    (hk : k < xs.length) :
    ascB (normAxis xs).1 = true ∧ (normAxis xs).1.length = xs.length ∧
    (∀ a, a < xs.length → (normAxis xs).2 a < xs.length) ∧
    ∃ k2, k2 < xs.length ∧ (normAxis xs).1.getD k2 0 = xs.getD k 0 ∧
      (normAxis xs).2 k2 = k := by
  cases hA : ascB xs with
  | true =>
    unfold normAxis
    rw [if_pos hA]
    exact ⟨hA, rfl, fun a ha => ha, k, hk, rfl, rfl⟩
  | false =>
    have hd := monoB_descB hx hA
    unfold normAxis
    rw [if_neg (by simp [hA])]
    refine ⟨ascB_reverse_of_descB hd, by simp,
      fun a ha => by show xs.length - 1 - a < xs.length; omega, ?_⟩
    refine ⟨xs.length - 1 - k, by omega, ?_,
      by show xs.length - 1 - (xs.length - 1 - k) = k; omega⟩
    rw [getD_reverse (by omega)]
    congr 1
    omega

/-- A completed loop over a nonempty source time axis implies both source
spatial axes passed scipy's strict-monotonicity check. -/
theorem loopCheck_none_mono {s : DataArray} {tlat tlon itime L M : List ℚ}
    (hsl : s.coords latKey = some L) (hso : s.coords lonKey = some M)
    (hne : itime ≠ []) (h : loopCheck s tlat tlon itime = none) :
    monoB L = true ∧ monoB M = true := by
  simp only [loopCheck, if_neg hne, hsl, hso] at h
  cases hc : monoB L && monoB M with
  | true =>
    simp only [Bool.and_eq_true] at hc
    exact hc
  | false =>
    rw [hc] at h
    simp at h

/-- Interpolating an everywhere-present slab onto destination coordinates that
coincide with its own strictly monotonic (ascending or descending) grid nodes
reproduces the slab cell: scipy flips a descending axis, after which the
zero/one node weights select the matching corner. -/
theorem rawCell_nodes_mono {s : DataArray} {L M : List ℚ} {tlat tlon : List ℚ}
    (hsl : s.coords latKey = some L) (hso : s.coords lonKey = some M)
    (hL : monoB L = true) (hM : monoB M = true)
    (hL2 : 2 ≤ L.length) (hM2 : 2 ≤ M.length)
    {i la lo : Nat} (hla : la < L.length) (hlo : lo < M.length)
    (htla : tlat.getD la 0 = L.getD la 0) (htlo : tlon.getD lo 0 = M.getD lo 0)
    (hf : ∀ a, a < L.length → ∀ b, b < M.length → (s.values i a b).isSome = true) :
    rawCell s tlat tlon i la lo = s.values i la lo := by
  obtain ⟨hLa, hLlen, hLmap, ka, hka, hkv, hki⟩ := normAxis_node hL hla
  obtain ⟨hMa, hMlen, hMmap, lb, hlb, hlv, hli⟩ := normAxis_node hM hlo
  unfold rawCell rawInterp
  rw [hsl, hso]
  simp only [Option.getD_some]
  rw [htla, htlo, ← hkv, ← hlv]
  have hres := interp2_nodes hLa hMa (by omega) (by omega)
    (fun a b => s.values i ((normAxis L).2 a) ((normAxis M).2 b))
    (fun a ha b hb => hf _ (hLmap a (by omega)) _ (hMmap b (by omega)))
    (show ka < (normAxis L).1.length by omega)
    (show lb < (normAxis M).1.length by omega)
  refine hres.trans ?_
  show s.values i ((normAxis L).2 ka) ((normAxis M).2 lb) = s.values i la lo
  rw [hki, hli]

def c3coords : String → Option (List ℚ) := fun key =>
  if key = timeKey then some [0]
  else if key = latKey then some [0, 1]
  else if key = lonKey then some [0, 1]
  else none

/-- Counterexample source for C3: one timestep, slab `[[1,2],[3,NaN]]`. -/
def c3src : DataArray :=
  ⟨some pm25Name, c3coords, fun _ la lo =>
    if la = 0 then (if lo = 0 then some 1 else some 2)
    else (if lo = 0 then some 3 else none)⟩

/-- Counterexample target for C3: identical spatial coordinates, reference
slab with no missing cells. -/
def c3tgt : DataArray := ⟨some pm25Name, c3coords, fun _ _ _ => some 1⟩

/-- Counterexample to C3 as stated: source and target share identical spatial
coordinates and the target's reference slice has no missing cells, yet the
result differs from the source: the source's NaN at `(1,1)` is multiplied by a
zero weight in the corner sum for cell `(0,0)` and poisons it, so the result is
missing at `(0,0)` while the source holds 1 there. -/
theorem c3_counterexample :
    c3src.coords latKey = c3tgt.coords latKey ∧
    c3src.coords lonKey = c3tgt.coords lonKey ∧
    (∀ la, la < 2 → ∀ lo, lo < 2 → (c3tgt.values 0 la lo).isSome = true) ∧
    exceptOk (regrid_data c3src c3tgt) = true ∧
    c3src.values 0 0 0 = some 1 ∧
    (okResult (regrid_data c3src c3tgt)).values 0 0 0 = none := by
  refine ⟨rfl, rfl, by decide, rfl, rfl, rfl⟩

/-- C3 (amended): if source and target share identical spatial coordinates
with at least two points per axis, the target's reference slice has no missing
cells, and the source payload itself has no missing cells, then the result of
every successful call equals the source slab cell-for-cell at every timestep —
interpolation onto the identical grid (strictly ascending or strictly
descending, as any successful run of the interpolation primitive guarantees)
is then the identity, and the mask addition adds an exact zero.  (Without
"the source has no missing cells" the claim fails: see `c3_counterexample`;
with an axis of fewer than two points scipy's degenerate `0/0` weight makes
every cell NaN, hence the length hypotheses.) -/
theorem c3_identity_amended (s t : DataArray) (r : RegriddedResult) (L M : List ℚ)
    (hsl : s.coords latKey = some L) (hso : s.coords lonKey = some M)
    (htl : t.coords latKey = some L) (hto : t.coords lonKey = some M)
    (hL2 : 2 ≤ L.length) (hM2 : 2 ≤ M.length)
    (hmask : ∀ la, la < L.length → ∀ lo, lo < M.length →
      (t.values 0 la lo).isSome = true)
    (hsrc : ∀ i a, a < L.length → ∀ b, b < M.length →
      (s.values i a b).isSome = true)
    (hok : regrid_data s t = Except.ok r) :
    ∀ i, i < r.time.length → ∀ la, la < L.length → ∀ lo, lo < M.length →
      r.values la lo i = s.values i la lo := by
  obtain ⟨ttime, tlat, tlon, itime, nm, hc1, he, hc2, hc3, hc4, hc5, hc6, hr⟩ := regrid_ok_inv hok
  have hteL : tlat = L := by
    rw [htl] at hc2
    exact (Option.some.inj hc2).symm
  have hteM : tlon = M := by
    rw [hto] at hc3
    exact (Option.some.inj hc3).symm
  subst hr
  subst hteL
  subst hteM
  intro i hi la hla lo hlo
  dsimp only at hi ⊢
  have hne : itime ≠ [] := by
    intro h0
    rw [h0] at hi
    exact absurd hi (by simp)
  obtain ⟨hmL, hmM⟩ := loopCheck_none_mono hsl hso hne hc5
  rw [runLoop_buffer hi]
  obtain ⟨v, hv⟩ := Option.isSome_iff_exists.mp (hmask la hla lo hlo)
  rw [maskedCell_some hv,
    rawCell_nodes_mono hsl hso hmL hmM hL2 hM2 hla hlo rfl rfl
      (fun a ha b hb => hsrc i a ha b hb)]

/-- Strictly descending coordinates for the C3 witness: `latitude=[1,0]`,
`longitude=[1,0]` (scipy accepts descending axes and flips them). -/
def c3dcoords : String → Option (List ℚ) := fun key =>
  if key = timeKey then some [0]
  else if key = latKey then some [1, 0]
  else if key = lonKey then some [1, 0]
  else none

/-- Everywhere-present source on the descending grid: slab `[[1,2],[3,4]]`. -/
def c3dsrc : DataArray :=
  ⟨some pm25Name, c3dcoords, fun _ la lo =>
    if la = 0 then (if lo = 0 then some 1 else some 2)
    else (if lo = 0 then some 3 else some 4)⟩

/-- Everywhere-present target on the same descending grid. -/
def c3dtgt : DataArray := ⟨some pm25Name, c3dcoords, fun _ _ _ => some 1⟩

/-- Witness for the amended C3, on identical strictly DESCENDING grids: the
call succeeds and the result reproduces the source, e.g. at cell `(0,1)` of
timestep 0. -/
theorem c3_witness :
    (okResult (regrid_data c3dsrc c3dtgt)).values 0 1 0 = c3dsrc.values 0 0 1 := by
  have h := c3_identity_amended c3dsrc c3dtgt (okResult (regrid_data c3dsrc c3dtgt))
    [1, 0] [1, 0] rfl rfl rfl rfl (by decide) (by decide)
    (by decide) ?hsrc rfl
  · exact h 0 (by decide) 0 (by decide) 1 (by decide)
  case hsrc =>
    intro i a _ b _
    show (if a = 0 then _ else _ : Val).isSome = true
    split <;> split <;> rfl

/-- Source for C9: one timestep, slab `[[5,6],[7,8]]` on `[0,1]×[0,1]`. -/
def c9src : DataArray :=
  ⟨some pm25Name, c3coords, fun _ la lo =>
    if la = 0 then (if lo = 0 then some 5 else some 6)
    else (if lo = 0 then some 7 else some 8)⟩

def c9tgtCoords : String → Option (List ℚ) := fun key =>
  if key = latKey then some [0] else c3coords key

/-- Target for C9's counterexample: length-1 latitude axis `[0]`, longitude
`[0,1]`, reference slab `[[NaN, 1]]`. -/
def c9tgt : DataArray :=
  ⟨some pm25Name, c9tgtCoords, fun _ _ lo => if lo = 0 then none else some 1⟩

/-- Counterexample to C9 as stated: a target with a length-1 LATITUDE axis on
which the squeezed mask (shape `(nlon,)`) broadcasts back onto the single row
correctly, so the cell-for-cell mask alignment holds — missing exactly where
the reference slab is missing, value kept elsewhere — even though not both
spatial axes have length ≥ 2. -/
theorem c9_counterexample :
    (okResult (regrid_data c9src c9tgt)).latitude.length = 1 ∧
    exceptOk (regrid_data c9src c9tgt) = true ∧
    (okResult (regrid_data c9src c9tgt)).values 0 0 0 = none ∧
    (okResult (regrid_data c9src c9tgt)).values 0 1 0 = some 6 := by
  refine ⟨rfl, rfl, rfl, ?_⟩
  have hok := regrid_eq_ok c9src c9tgt [0] [0] [0, 1] [0] pm25Name
    rfl (by decide) rfl rfl rfl (by decide) rfl
  rw [hok]
  show (runLoop c9src c9tgt [0] [0, 1] ([0] : List ℚ).length).buffer 0 1 0 = some 6
  rw [runLoop_buffer (show (0 : Nat) < ([0] : List ℚ).length by decide)]
  rw [maskedCell_some (show c9tgt.values 0 0 1 = some 1 from rfl),
    rawCell_nodes (show c9src.coords latKey = some [0, 1] from rfl)
      (show c9src.coords lonKey = some [0, 1] from rfl)
      (by decide) (by decide) (by decide) (by decide) (by decide) (by decide)
      (show ([0] : List ℚ).getD 0 0 = ([0, 1] : List ℚ).getD 0 0 from rfl)
      (show ([0, 1] : List ℚ).getD 1 0 = ([0, 1] : List ℚ).getD 1 0 from rfl) ?hf]
  · rfl
  case hf =>
    intro a _ b _
    show (if a = 0 then _ else _ : Val).isSome = true
    split <;> split <;> rfl

/-- C9 (amended): the squeeze-based mask addition stays cell-aligned in every
successful call — including targets with a length-1 latitude axis, where the
squeezed `(nlon,)` mask broadcasts back onto the single row correctly (see
`c9_counterexample`, refuting "aligned only when both axes have length ≥ 2") —
but a target with a length-1 longitude axis and at least two latitude points
makes the squeezed `(nlat,)` mask broadcast against the wrong (longitude) axis,
the per-timestep store fails, and `regrid_data` raises instead of returning a
result (whenever the source has at least one timestep, so that the loop body
runs at all). -/
theorem c9_degenerate_longitude (s t : DataArray)
    (ttime tlat tlon itime slat slon : List ℚ)
    (h1 : t.coords timeKey = some ttime) (h2 : ttime ≠ [])
    (h3 : t.coords latKey = some tlat) (h4 : t.coords lonKey = some tlon)
    (h5 : s.coords timeKey = some itime) (h6 : itime ≠ [])
    (h7 : s.coords latKey = some slat) (h8 : s.coords lonKey = some slon)
    (h9 : monoB slat = true) (h10 : monoB slon = true)
    (h11 : tlon.length = 1) (h12 : 2 ≤ tlat.length) :
    regrid_data s t = Except.error RegridError.broadcastError := by
  have hlc : loopCheck s tlat tlon itime = some RegridError.broadcastError := by
    simp only [loopCheck, if_neg h6, h7, h8, h9, h10, Bool.and_self, if_true]
    rw [if_pos ⟨h11, h12⟩]
  simp only [regrid_data, h1, h3, h4, h5, hlc, if_neg h2]

def c9wtgtCoords : String → Option (List ℚ) := fun key =>
  if key = lonKey then some [0] else c3coords key

/-- Target for the C9 witness: latitude `[0,1]`, length-1 longitude `[0]`. -/
def c9wtgt : DataArray := ⟨some pm25Name, c9wtgtCoords, fun _ _ _ => some 1⟩

/-- Witness for the amended C9: a 2×1 target makes the call raise the
broadcast failure. -/
theorem c9_witness :
    regrid_data c9src c9wtgt = Except.error RegridError.broadcastError :=
  c9_degenerate_longitude c9src c9wtgt [0] [0, 1] [0] [0] [0, 1] [0, 1]
    rfl (by decide) rfl rfl rfl (by decide) rfl rfl (by decide) (by decide)
    rfl (by decide)

/-- C5 counterexample source: an empty time axis and no spatial axes at all. -/
def c5src : DataArray :=
  ⟨some pm25Name, fun key => if key = timeKey then some [] else none,
   fun _ _ _ => none⟩

def c5tgtCoords : String → Option (List ℚ) := fun key =>
  if key = timeKey then some [0]
  else if key = latKey then some [0, 2, 1]
  else if key = lonKey then some [0, 1]
  else none

/-- C5 counterexample target: non-monotonic latitude axis `[0, 2, 1]`. -/
def c5tgt : DataArray := ⟨some pm25Name, c5tgtCoords, fun _ _ _ => some 1⟩

/-- Counterexample to C5 as stated: the source lacks both spatial axes and the
target's latitude coordinates are non-monotonic, yet `regrid_data` succeeds —
with an empty source time axis the loop body never runs, so the missing source
axes are never touched, and target spatial coordinates are never validated at
all (they are only interpolation query points, not the grid). -/
theorem c5_counterexample :
    c5src.coords latKey = none ∧
    c5tgt.coords latKey = some [0, 2, 1] ∧
    monoB [0, 2, 1] = false ∧
    exceptOk (regrid_data c5src c5tgt) = true := by
  exact ⟨rfl, rfl, by decide, rfl⟩

/-- C5 (amended): for inputs whose time axes are present and nonempty on both
grids, `regrid_data` fails with the ShapeMismatch-class error iff one of the
four spatial coordinate axes (target or source latitude/longitude) is absent,
and fails with the InterpolationError-class error iff all four are present and
the SOURCE's latitude or longitude coordinates are not strictly monotonic
(non-monotonic or containing duplicates).  The target's spatial coordinates
are never validated (see `c5_counterexample`), and no value-range validation
occurs; the remaining failure classes are the degenerate-longitude broadcast
failure and the unset-name failure. -/
theorem c5_error_conditions (s t : DataArray) (ttime itime : List ℚ)
    (ht : t.coords timeKey = some ttime) (hte : ttime ≠ [])
    (hs : s.coords timeKey = some itime) (hse : itime ≠ []) :
    (regrid_data s t = Except.error RegridError.shapeMismatch ↔
      ((t.coords latKey).isNone = true ∨ (t.coords lonKey).isNone = true ∨
       (s.coords latKey).isNone = true ∨ (s.coords lonKey).isNone = true)) ∧
    (regrid_data s t = Except.error RegridError.interpolationError ↔
      ((t.coords latKey).isSome = true ∧ (t.coords lonKey).isSome = true ∧
       (s.coords latKey).isSome = true ∧ (s.coords lonKey).isSome = true ∧
       (monoB ((s.coords latKey).getD []) = false ∨
        monoB ((s.coords lonKey).getD []) = false))) := by
  rcases htl : t.coords latKey with _ | tlat
  · have hre : regrid_data s t = Except.error RegridError.shapeMismatch := by
      simp only [regrid_data, ht, htl, if_neg hte]
    rw [hre]
    constructor <;> simp [htl]
  rcases hto : t.coords lonKey with _ | tlon
  · have hre : regrid_data s t = Except.error RegridError.shapeMismatch := by
      simp only [regrid_data, ht, htl, hto, if_neg hte]
    rw [hre]
    constructor <;> simp [htl, hto]
  rcases hsl : s.coords latKey with _ | slat
  · have hlc : loopCheck s tlat tlon itime = some RegridError.shapeMismatch := by
      simp only [loopCheck, if_neg hse, hsl]
    have hre : regrid_data s t = Except.error RegridError.shapeMismatch := by
      simp only [regrid_data, ht, htl, hto, hs, hlc, if_neg hte]
    rw [hre]
    constructor <;> simp [htl, hto, hsl]
  rcases hso : s.coords lonKey with _ | slon
  · have hlc : loopCheck s tlat tlon itime = some RegridError.shapeMismatch := by
      simp only [loopCheck, if_neg hse, hsl, hso]
    have hre : regrid_data s t = Except.error RegridError.shapeMismatch := by
      simp only [regrid_data, ht, htl, hto, hs, hlc, if_neg hte]
    rw [hre]
    constructor <;> simp [htl, hto, hsl, hso]
  cases hm1 : monoB slat with
  | false =>
    have hlc : loopCheck s tlat tlon itime = some RegridError.interpolationError := by
      simp [loopCheck, hse, hsl, hso, hm1]
    have hre : regrid_data s t = Except.error RegridError.interpolationError := by
      simp only [regrid_data, ht, htl, hto, hs, hlc, if_neg hte]
    rw [hre]
    constructor <;> simp [htl, hto, hsl, hso, hm1]
  | true =>
    cases hm2 : monoB slon with
    | false =>
      have hlc : loopCheck s tlat tlon itime = some RegridError.interpolationError := by
        simp [loopCheck, hse, hsl, hso, hm1, hm2]
      have hre : regrid_data s t = Except.error RegridError.interpolationError := by
        simp only [regrid_data, ht, htl, hto, hs, hlc, if_neg hte]
      rw [hre]
      constructor <;> simp [htl, hto, hsl, hso, hm1, hm2]
    | true =>
      by_cases hb : tlon.length = 1 ∧ 2 ≤ tlat.length
      · have hlc : loopCheck s tlat tlon itime = some RegridError.broadcastError := by
          simp [loopCheck, hse, hsl, hso, hm1, hm2, hb]
        have hre : regrid_data s t = Except.error RegridError.broadcastError := by
          simp only [regrid_data, ht, htl, hto, hs, hlc, if_neg hte]
        rw [hre]
        constructor <;> simp [htl, hto, hsl, hso, hm1, hm2]
      · have hlc : loopCheck s tlat tlon itime = none := by
          simp [loopCheck, hse, hsl, hso, hm1, hm2, hb]
        rcases hnm : s.name with _ | nm
        · have hre : regrid_data s t = Except.error RegridError.typeError := by
            simp only [regrid_data, ht, htl, hto, hs, hlc, hnm, if_neg hte]
          rw [hre]
          constructor <;> simp [htl, hto, hsl, hso, hm1, hm2]
        · have hre := regrid_eq_ok s t ttime tlat tlon itime nm ht hte htl hto hs hlc hnm
          rw [hre]
          constructor <;> simp [htl, hto, hsl, hso, hm1, hm2]

def c5wtgtCoords : String → Option (List ℚ) := fun key =>
  if key = timeKey then some [0]
  else if key = lonKey then some [0, 1]
  else none

/-- Target for the C5 witness: a nonempty time axis but no latitude axis. -/
def c5wtgt : DataArray := ⟨some pm25Name, c5wtgtCoords, fun _ _ _ => some 1⟩

/-- Witness for the amended C5 at a concrete pair (target lacking its latitude
axis): both error-condition equivalences hold there. -/
theorem c5_witness :
    (regrid_data c4src c5wtgt = Except.error RegridError.shapeMismatch ↔
      ((c5wtgt.coords latKey).isNone = true ∨ (c5wtgt.coords lonKey).isNone = true ∨
       (c4src.coords latKey).isNone = true ∨ (c4src.coords lonKey).isNone = true)) ∧
    (regrid_data c4src c5wtgt = Except.error RegridError.interpolationError ↔
      ((c5wtgt.coords latKey).isSome = true ∧ (c5wtgt.coords lonKey).isSome = true ∧
       (c4src.coords latKey).isSome = true ∧ (c4src.coords lonKey).isSome = true ∧
       (monoB ((c4src.coords latKey).getD []) = false ∨
        monoB ((c4src.coords lonKey).getD []) = false))) :=
  c5_error_conditions c4src c5wtgt [0] [0, 1] rfl (by decide) rfl (by decide)
